import Mathlib

/-!
Shallow embedding of `rust/main/hyperlane-base/src/types/gcs_storage.rs`:
the GCS-backed `CheckpointSyncer` (key construction, error classification,
and the nine store operations), modelled over an explicit object-store
state.  Serialized bytes are represented by their decoded denotation (the
`serde_json` round trip for the stored domain types), with a `raw`
constructor standing for bytes that do not decode.
-/

namespace GcsStorage

/-- Constant `LATEST_INDEX_KEY` from the source. -/
def LATEST_INDEX_KEY : String := "gcsLatestIndexKey"

/-- Constant `METADATA_KEY` from the source. -/
def METADATA_KEY : String := "gcsMetadataKey"

/-- Constant `ANNOUNCEMENT_KEY` from the source. -/
def ANNOUNCEMENT_KEY : String := "gcsAnnouncementKey"

/-- Constant `REORG_FLAG_KEY` from the source. -/
def REORG_FLAG_KEY : String := "gcsReorgFlagKey"

/-- The checkpoint value embedded in a signed checkpoint; the source only
touches its `index` field (`signed_checkpoint.value.index`), the rest of the
payload is opaque. -/
structure Checkpoint where
  index : Nat
  payload : Nat
  deriving DecidableEq, Repr

/-- Models `SignedCheckpointWithMessageId` from `hyperlane_core`: a signed payload
with an embedded checkpoint value; opaque except for `value.index`. -/
structure SignedCheckpointWithMessageId where
  value : Checkpoint
  signature : Nat
  deriving DecidableEq, Repr

/-- Models `AgentMetadata`: opaque serializable value. -/
structure AgentMetadata where
  data : Nat
  deriving DecidableEq, Repr

/-- Models `SignedAnnouncement`: opaque serializable value. -/
structure SignedAnnouncement where
  data : Nat
  deriving DecidableEq, Repr

/-- Models `ReorgEvent`: opaque serializable value. -/
structure ReorgEvent where
  data : Nat
  deriving DecidableEq, Repr

/-- Stored object bytes, represented by their decoded denotation: each
constructor is the image of one `serde_json` encoding used by the source;
`raw` stands for bytes that decode as none of the expected domain types. -/
inductive GcsBytes where
  | jsonU32 (n : Nat)
  | jsonCheckpoint (c : SignedCheckpointWithMessageId)
  | jsonMetadata (m : AgentMetadata)
  | jsonAnnouncement (a : SignedAnnouncement)
  | jsonReorg (r : ReorgEvent)
  | raw (s : String)
  deriving DecidableEq, Repr

/-- Models `serde_json::from_slice::<u32>`: succeeds exactly on bytes that
are the encoding of a `u32`. -/
def decodeU32 : GcsBytes → Option Nat
  | GcsBytes.jsonU32 n => some n
  | _ => none

/-- Models `serde_json::from_slice::<SignedCheckpointWithMessageId>`. -/
def decodeCheckpoint : GcsBytes → Option SignedCheckpointWithMessageId
  | GcsBytes.jsonCheckpoint c => some c
  | _ => none

/-- Models the `ya_gcp::storage::ObjectError` shapes the source matches on:
`InvalidName`, `Failure(Error::HttpStatus(..))` (carrying the status code),
and every other failure collapsed into `other`. -/
inductive ObjectError where
  | invalidName (name : String)
  | httpStatus (code : Nat)
  | other (msg : String)
  deriving DecidableEq, Repr

/-- Errors surfaced by the syncer operations: a `serde_json` decode failure
(propagated by `?`), or a backend `ObjectError` re-raised by `bail!(e)`. -/
inductive SyncerError where
  | decodeFailure
  | object (e : ObjectError)
  deriving DecidableEq, Repr

/-- Models `GcsStorageClient`: the immutable store identity (bucket name and
optional folder) held by the client; the transport handle has no
observable state of its own. -/
structure GcsStorageClient where
  bucket : String
  folder : Option String
  deriving DecidableEq, Repr

/-- The content of the client's bucket: an association list from object key
to stored bytes; the most recent write for a key shadows older entries. -/
abbrev GcsState := List (String × GcsBytes)

/-- A bucket with no prior writes. -/
def emptyState : GcsState := []

/-- Models `StorageClient::get_object` against the bucket content: the
bytes if the key is present, and the HTTP 404 failure shape otherwise
(GCS reports an absent object as `NOT_FOUND`). -/
def getObject (st : GcsState) (key : String) : Except ObjectError GcsBytes :=
  match st.find? (fun p => p.1 == key) with
  | some p => Except.ok p.2
  | none => Except.error (ObjectError.httpStatus 404)

/-- Models `StorageClient::insert_object`: full replacement of the object
at `key`. -/
def insertObject (st : GcsState) (key : String) (b : GcsBytes) : GcsState :=
  (key, b) :: st

/-- Models `GcsStorageClient::get_checkpoint_key`:
`format!("checkpoint_{index}_with_id.json")`. -/
def get_checkpoint_key (index : Nat) : String :=
  "checkpoint_" ++ toString index ++ "_with_id.json"

/-- Rust `str::trim_end_matches('/')`: removes every trailing `'/'`. -/
def trimEndMatchesSlash (s : String) : String :=
  String.mk ((s.data.reverse.dropWhile (fun c => c = '/')).reverse)

/-- Models `GcsStorageClient::object_path`: folder-prefixed key when a folder is
configured (`format!("{}/{}", folder.trim_end_matches('/'), object_name)`),
the bare object name otherwise. -/
def object_path (c : GcsStorageClient) (object_name : String) : String :=
  match c.folder with
  | some folder => trimEndMatchesSlash folder ++ "/" ++ object_name
  | none => object_name

/-- Models `GcsStorageClient::validate_bucket_name`: `bail!` when the bucket name
contains `'/'`. -/
def validate_bucket_name (bucket : String) : Except String Unit :=
  if bucket.data.contains '/' then
    Except.error ("Bucket name '" ++ bucket ++ "' has an invalid symbol '/'")
  else
    Except.ok ()

/-- Models `GcsStorageClientBuilder::build`: awaits backend-client construction
first (modelled by its outcome `ctor`; it performs no storage operation),
then validates the bucket name, then returns the client value. -/
def build (ctor : Except String Unit) (bucket : String) (folder : Option String) :
    Except String GcsStorageClient :=
  match ctor with
  | Except.error e => Except.error e
  | Except.ok _ =>
    match validate_bucket_name bucket with
    | Except.error e => Except.error e
    | Except.ok _ => Except.ok { bucket := bucket, folder := folder }

/-- The match in `latest_index` (lines 154-164) applied to the backend's
response: decode on success, `Ok(None)` on `InvalidName` and on HTTP
`NOT_FOUND`, `bail!(e)` on everything else. -/
def latestIndexResult (r : Except ObjectError GcsBytes) :
    Except SyncerError (Option Nat) :=
  match r with
  | Except.ok data =>
    match decodeU32 data with
    | some n => Except.ok (some n)
    | none => Except.error SyncerError.decodeFailure
  | Except.error (ObjectError.invalidName _) => Except.ok none
  | Except.error (ObjectError.httpStatus code) =>
    if code = 404 then Except.ok none
    else Except.error (SyncerError.object (ObjectError.httpStatus code))
  | Except.error e => Except.error (SyncerError.object e)

/-- The match in `fetch_checkpoint` (lines 187-199) applied to the
backend's response: decode on success, `Ok(None)` only on HTTP
`NOT_FOUND`, `bail!(e)` on everything else (including `InvalidName`). -/
def fetchCheckpointResult (r : Except ObjectError GcsBytes) :
    Except SyncerError (Option SignedCheckpointWithMessageId) :=
  match r with
  | Except.ok data =>
    match decodeCheckpoint data with
    | some c => Except.ok (some c)
    | none => Except.error SyncerError.decodeFailure
  | Except.error (ObjectError.httpStatus code) =>
    if code = 404 then Except.ok none
    else Except.error (SyncerError.object (ObjectError.httpStatus code))
  | Except.error e => Except.error (SyncerError.object e)

/-- Models `CheckpointSyncer::latest_index` for `GcsStorageClient`: get the object
at the fixed key `LATEST_INDEX_KEY` (no folder prefix) and classify. -/
def latest_index (_c : GcsStorageClient) (st : GcsState) :
    Except SyncerError (Option Nat) :=
  latestIndexResult (getObject st LATEST_INDEX_KEY)

/-- Models `CheckpointSyncer::write_latest_index`: encode the index and insert at
the fixed key `LATEST_INDEX_KEY`. -/
def write_latest_index (_c : GcsStorageClient) (st : GcsState) (index : Nat) :
    GcsState :=
  insertObject st LATEST_INDEX_KEY (GcsBytes.jsonU32 index)

/-- Models `CheckpointSyncer::update_latest_index`: read the current latest index
(`unwrap_or(0)`), write only when the argument is strictly greater. -/
def update_latest_index (c : GcsStorageClient) (st : GcsState) (index : Nat) :
    Except SyncerError GcsState :=
  match latest_index c st with
  | Except.error e => Except.error e
  | Except.ok curr? =>
    let curr := curr?.getD 0
    if index > curr then Except.ok (write_latest_index c st index)
    else Except.ok st

/-- Models `CheckpointSyncer::fetch_checkpoint`: get the object at the checkpoint
key for `index` (no folder prefix) and classify. -/
def fetch_checkpoint (_c : GcsStorageClient) (st : GcsState) (index : Nat) :
    Except SyncerError (Option SignedCheckpointWithMessageId) :=
  fetchCheckpointResult (getObject st (get_checkpoint_key index))

/-- Models `CheckpointSyncer::write_checkpoint`: insert the encoded checkpoint at
the key derived from its embedded index. -/
def write_checkpoint (_c : GcsStorageClient) (st : GcsState)
    (signed_checkpoint : SignedCheckpointWithMessageId) : GcsState :=
  insertObject st (get_checkpoint_key signed_checkpoint.value.index)
    (GcsBytes.jsonCheckpoint signed_checkpoint)

/-- Models `CheckpointSyncer::write_metadata`: insert the encoded metadata at the
folder-prefixed key derived from `METADATA_KEY`. -/
def write_metadata (c : GcsStorageClient) (st : GcsState) (metadata : AgentMetadata) :
    GcsState :=
  insertObject st (object_path c METADATA_KEY) (GcsBytes.jsonMetadata metadata)

/-- Models `CheckpointSyncer::write_announcement`: insert the encoded announcement
at the folder-prefixed key derived from the literal `"announcement.json"`. -/
def write_announcement (c : GcsStorageClient) (st : GcsState)
    (announcement : SignedAnnouncement) : GcsState :=
  insertObject st (object_path c "announcement.json")
    (GcsBytes.jsonAnnouncement announcement)

/-- Models `CheckpointSyncer::announcement_location`:
`format!("gs://{}/{}", bucket, object_path(ANNOUNCEMENT_KEY))`. -/
def announcement_location (c : GcsStorageClient) : String :=
  "gs://" ++ c.bucket ++ "/" ++ object_path c ANNOUNCEMENT_KEY

/-- Models `CheckpointSyncer::write_reorg_status`: insert the encoded event at the
fixed key `REORG_FLAG_KEY` (no folder prefix). -/
def write_reorg_status (_c : GcsStorageClient) (st : GcsState) (reorged_event : ReorgEvent) :
    GcsState :=
  insertObject st REORG_FLAG_KEY (GcsBytes.jsonReorg reorged_event)

/-- Models `CheckpointSyncer::reorg_status`: the body is literally `Ok(None)` —
the bucket content is never consulted. -/
def reorg_status (_c : GcsStorageClient) (_st : GcsState) :
    Except SyncerError (Option ReorgEvent) :=
  Except.ok none

/-- Serial execution of `update_latest_index` over a list of arguments,
stopping at the first error. -/
def runUpdates (c : GcsStorageClient) : GcsState → List Nat → Except SyncerError GcsState
  | st, [] => Except.ok st
  | st, i :: rest =>
    match update_latest_index c st i with
    | Except.error e => Except.error e
    | Except.ok st' => runUpdates c st' rest

/-- Maximum of a list of indices (0 when empty). -/
def listMax : List Nat → Nat
  | [] => 0
  | i :: rest => max i (listMax rest)


/-- Reading the latest index right after writing it yields the written
value (decoded through the latest-index key, for any client pair). -/
theorem latest_index_write (c c' : GcsStorageClient) (st : GcsState) (i : Nat)
    (hi : ¬ i = 0) :
    latest_index c (write_latest_index c' st i) =
      Except.ok (if i = 0 then none else some i) := by
  simp [latest_index, write_latest_index, getObject, insertObject, List.find?,
    latestIndexResult, decodeU32, LATEST_INDEX_KEY, hi]

/-- Invariant of serial `update_latest_index` runs: starting from a state
whose stored latest index reads back as `m` (with `m = 0` standing for an
absent object), a run over `l` succeeds and the final stored latest index
reads back as `max m (listMax l)`, still with absence for 0. -/
theorem runUpdates_spec (c : GcsStorageClient) (l : List Nat) :
    ∀ (st : GcsState) (m : Nat),
      latest_index c st = Except.ok (if m = 0 then none else some m) →
      ∃ st', runUpdates c st l = Except.ok st' ∧
        latest_index c st' =
          Except.ok (if max m (listMax l) = 0 then none
                     else some (max m (listMax l))) := by
  induction l with
  | nil =>
    intro st m h
    refine ⟨st, rfl, ?_⟩
    simpa [listMax] using h
  | cons i r ih =>
    intro st m h
    have hcurr : update_latest_index c st i =
        if i > m then Except.ok (write_latest_index c st i) else Except.ok st := by
      unfold update_latest_index
      rw [h]
      cases m with
      | zero => simp
      | succ k => simp
    by_cases hi : i > m
    · have h1 : latest_index c (write_latest_index c st i) =
          Except.ok (if i = 0 then none else some i) :=
        latest_index_write c c st i (by omega)
      obtain ⟨st', hr, hl⟩ := ih (write_latest_index c st i) i h1
      refine ⟨st', ?_, ?_⟩
      · simp [runUpdates, hcurr, hi, hr]
      · have hm : max m (listMax (i :: r)) = max i (listMax r) :=
          max_eq_right (Nat.le_trans (Nat.le_of_lt hi) (le_max_left i (listMax r)))
        rw [hm]; exact hl
    · obtain ⟨st', hr, hl⟩ := ih st m h
      refine ⟨st', ?_, ?_⟩
      · simp [runUpdates, hcurr, hi, hr]
      · have hm : max m (listMax (i :: r)) = max m (listMax r) := by
          have hstep : listMax (i :: r) = max i (listMax r) := rfl
          rw [hstep]
          have him : i ≤ m := Nat.le_of_not_lt hi
          rcases Nat.le_total i (listMax r) with hix | hix
          · rw [max_eq_right hix]
          · rw [max_eq_left hix, max_eq_left him,
              max_eq_left (Nat.le_trans hix him)]
        rw [hm]; exact hl

/-- C1: evaluation at the failing input `bucket = "test-bucket"`,
`folder = Some("agent1")`: `announcement_location()` advertises the key
derived from `ANNOUNCEMENT_KEY = "gcsAnnouncementKey"`, while
`write_announcement` stores the announcement at the key derived from
`"announcement.json"` — so the advertised location is not the write key
and differs from the string the claim requires. -/
theorem announcement_location_key_mismatch :
    announcement_location ⟨"test-bucket", some "agent1"⟩ =
      "gs://test-bucket/agent1/gcsAnnouncementKey" ∧
    object_path ⟨"test-bucket", some "agent1"⟩ "announcement.json" =
      "agent1/announcement.json" ∧
    announcement_location ⟨"test-bucket", some "agent1"⟩ ≠
      "gs://test-bucket/agent1/announcement.json" := by
  refine ⟨by decide, by decide, by decide⟩

/-- C2 counterexample: `fetch_checkpoint` maps the invalid-identifier
backend shape (`ObjectError::InvalidName`) to `bail!(e)`, an error — not
to `Ok(None)` as the claim requires for every not-found shape. -/
theorem fetch_checkpoint_invalid_name_is_error :
    fetchCheckpointResult
        (Except.error (ObjectError.invalidName "checkpoint_0_with_id.json")) =
      Except.error
        (SyncerError.object (ObjectError.invalidName "checkpoint_0_with_id.json")) ∧
    fetchCheckpointResult
        (Except.error (ObjectError.invalidName "checkpoint_0_with_id.json")) ≠
      Except.ok none := by
  refine ⟨rfl, by intro h; exact Except.noConfusion h⟩

/-- C2 amended: `fetch_checkpoint` surfaces the HTTP-404 not-found shape
as `Ok(None)` (the invalid-identifier shape propagates as an error, unlike
in `latest_index`), and on a store with no prior writes — where the
backend reports every absent object as 404 — it returns `None` for every
index, never an error. -/
theorem fetch_checkpoint_not_found_none (c : GcsStorageClient) (i : Nat) :
    fetch_checkpoint c emptyState i = Except.ok none ∧
    fetchCheckpointResult (Except.error (ObjectError.httpStatus 404)) =
      Except.ok none := by
  refine ⟨?_, rfl⟩
  simp [fetch_checkpoint, emptyState, getObject, List.find?, fetchCheckpointResult]

/-- C3 counterexample: for the serial sequence `[0]` against a fresh
store, `update_latest_index(0)` performs no write (0 is not strictly
greater than the current value 0), so the final stored latest-index value
is absent (`None`) and not `Some(listMax [0]) = Some(0)` as the claim
requires. -/
theorem update_latest_index_zero_sequence :
    runUpdates ⟨"test-bucket", some "agent1"⟩ emptyState [0] =
      Except.ok emptyState ∧
    latest_index ⟨"test-bucket", some "agent1"⟩ emptyState = Except.ok none ∧
    latest_index ⟨"test-bucket", some "agent1"⟩ emptyState ≠
      Except.ok (some (listMax [0])) := by
  refine ⟨rfl, rfl, ?_⟩
  intro h
  have h2 := Except.ok.inj h
  exact Option.noConfusion h2

/-- C3 amended: for any serial sequence of `update_latest_index` calls
against a fresh store the run succeeds, and the final stored latest-index
value is `Some(max(i_1..i_n))` whenever that maximum is positive; when
every argument is 0 no write is ever performed and the latest-index object
stays absent (read back as `None`, i.e. effective value 0).  Each call
reads the current value (absence as 0) and writes only when strictly
greater, as the claim states. -/
theorem update_latest_index_monotone (c : GcsStorageClient) (l : List Nat) :
    ∃ st', runUpdates c emptyState l = Except.ok st' ∧
      latest_index c st' =
        Except.ok (if listMax l = 0 then none else some (listMax l)) := by
  have h0 : latest_index c emptyState =
      Except.ok (if (0 : Nat) = 0 then none else some 0) := by
    simp [latest_index, emptyState, getObject, List.find?, latestIndexResult]
  obtain ⟨st', hr, hl⟩ := runUpdates_spec c l emptyState 0 h0
  exact ⟨st', hr, by simpa using hl⟩

/-- C4: `latest_index` returns `Some(n)` when the latest-index object
exists and decodes as `n`, `None` when the object does not exist (both the
HTTP-404 and the invalid-identifier shape), an error when the object
exists but its bytes fail to decode, and an error when the backend reports
any non-not-found failure; the store-level read goes through exactly this
classification of the fixed-key lookup. -/
theorem latest_index_classification (n code : Nat) (s msg : String)
    (b : GcsBytes) (c : GcsStorageClient) (st : GcsState) :
    latestIndexResult (Except.ok (GcsBytes.jsonU32 n)) = Except.ok (some n) ∧
    latestIndexResult (Except.error (ObjectError.httpStatus 404)) = Except.ok none ∧
    latestIndexResult (Except.error (ObjectError.invalidName s)) = Except.ok none ∧
    (decodeU32 b = none →
      latestIndexResult (Except.ok b) = Except.error SyncerError.decodeFailure) ∧
    (code ≠ 404 →
      latestIndexResult (Except.error (ObjectError.httpStatus code)) =
        Except.error (SyncerError.object (ObjectError.httpStatus code))) ∧
    latestIndexResult (Except.error (ObjectError.other msg)) =
      Except.error (SyncerError.object (ObjectError.other msg)) ∧
    latest_index c st = latestIndexResult (getObject st LATEST_INDEX_KEY) := by
  refine ⟨rfl, rfl, rfl, ?_, ?_, rfl, rfl⟩
  · intro h
    simp [latestIndexResult, h]
  · intro h
    simp [latestIndexResult, h]

/-- C4 witness: the classification applied at concrete inputs, with the
two hypothetical branches discharged at a corrupt object and at an HTTP
500 failure. -/
theorem latest_index_classification_witness :
    latestIndexResult (Except.ok (GcsBytes.jsonU32 7)) = Except.ok (some 7) ∧
    latestIndexResult (Except.ok (GcsBytes.raw "oops")) =
      Except.error SyncerError.decodeFailure ∧
    latestIndexResult (Except.error (ObjectError.httpStatus 500)) =
      Except.error (SyncerError.object (ObjectError.httpStatus 500)) := by
  have h := latest_index_classification 7 500 "k" "boom" (GcsBytes.raw "oops")
    ⟨"test-bucket", none⟩ emptyState
  exact ⟨h.1, h.2.2.2.1 rfl, h.2.2.2.2.1 (by decide)⟩

/-- C5: `reorg_status` always returns `Ok(None)` — its body never consults
the store — in particular immediately after any successful
`write_reorg_status` call, for any event and any prior store contents. -/
theorem reorg_status_always_none (c c' : GcsStorageClient)
    (st st' : GcsState) (e : ReorgEvent) :
    reorg_status c (write_reorg_status c st e) = Except.ok none ∧
    reorg_status c' st' = Except.ok none :=
  ⟨rfl, rfl⟩


/-- C6: key construction is a pure deterministic function of the store
identity: the latest-index read and write use the fixed key
`"gcsLatestIndexKey"` with no folder prefix, the checkpoint at index `i`
uses `"checkpoint_{i}_with_id.json"` with no folder prefix, the reorg flag
uses the fixed key `"gcsReorgFlagKey"` with no folder prefix, metadata
uses the folder-prefixed key derived from `"gcsMetadataKey"`, and a
configured folder prefixes a key as the folder with trailing `'/'`
stripped, a `'/'`, and the object name — with no folder the object name is
used unchanged. -/
theorem key_construction_spec (c : GcsStorageClient) (st : GcsState)
    (i : Nat) (sc : SignedCheckpointWithMessageId) (m : AgentMetadata)
    (e : ReorgEvent) (b f name : String) :
    write_latest_index c st i =
      insertObject st "gcsLatestIndexKey" (GcsBytes.jsonU32 i) ∧
    latest_index c st = latestIndexResult (getObject st "gcsLatestIndexKey") ∧
    get_checkpoint_key i = "checkpoint_" ++ toString i ++ "_with_id.json" ∧
    fetch_checkpoint c st i =
      fetchCheckpointResult (getObject st (get_checkpoint_key i)) ∧
    write_checkpoint c st sc =
      insertObject st (get_checkpoint_key sc.value.index)
        (GcsBytes.jsonCheckpoint sc) ∧
    write_reorg_status c st e =
      insertObject st "gcsReorgFlagKey" (GcsBytes.jsonReorg e) ∧
    write_metadata c st m =
      insertObject st (object_path c "gcsMetadataKey") (GcsBytes.jsonMetadata m) ∧
    object_path ⟨b, some f⟩ name = trimEndMatchesSlash f ++ "/" ++ name ∧
    object_path ⟨b, none⟩ name = name ∧
    trimEndMatchesSlash "agent1///" = "agent1" ∧
    get_checkpoint_key 5 = "checkpoint_5_with_id.json" :=
  ⟨rfl, rfl, rfl, rfl, rfl, rfl, rfl, rfl, rfl, by decide, by decide⟩

/-- C7: building a syncer with a bucket name containing `'/'` always
returns an error result (whatever the outcome of backend-client
construction, and when that construction succeeds the error is exactly the
bucket-validation failure); bucket-name validation itself is a pure check
that succeeds for every bucket name not containing `'/'` and consults no
storage state. -/
theorem build_bucket_validation (ctor : Except String Unit)
    (bucket : String) (folder : Option String) :
    (bucket.data.contains '/' = true →
      ∃ msg, build ctor bucket folder = Except.error msg) ∧
    (bucket.data.contains '/' = false →
      validate_bucket_name bucket = Except.ok ()) ∧
    (bucket.data.contains '/' = true →
      build (Except.ok ()) bucket folder =
        Except.error ("Bucket name '" ++ bucket ++ "' has an invalid symbol '/'")) := by
  refine ⟨?_, ?_, ?_⟩
  · intro h
    cases ctor with
    | error e => exact ⟨e, rfl⟩
    | ok u =>
      refine ⟨"Bucket name '" ++ bucket ++ "' has an invalid symbol '/'", ?_⟩
      have hm : '/' ∈ bucket.data := by simpa using h
      simp [build, validate_bucket_name, hm]
  · intro h
    have hm : '/' ∉ bucket.data := by simpa using h
    simp [validate_bucket_name, hm]
  · intro h
    have hm : '/' ∈ bucket.data := by simpa using h
    simp [build, validate_bucket_name, hm]

/-- C7 witness: the validation applied at the concrete bucket names
`"bad/bucket"` (rejected) and `"test-bucket"` (accepted). -/
theorem build_bucket_validation_witness :
    (∃ msg, build (Except.ok ()) "bad/bucket" none = Except.error msg) ∧
    validate_bucket_name "test-bucket" = Except.ok () := by
  have h1 := build_bucket_validation (Except.ok ()) "bad/bucket" none
  have h2 := build_bucket_validation (Except.ok ()) "test-bucket" none
  exact ⟨h1.1 (by decide), h2.2.1 (by decide)⟩

/-- C8: round trip — writing any checkpoint and then fetching at its
embedded index on the same store returns `Some` of an equal checkpoint
value, for any prior store contents. -/
theorem write_fetch_checkpoint_roundtrip (c : GcsStorageClient)
    (st : GcsState) (sc : SignedCheckpointWithMessageId) :
    fetch_checkpoint c (write_checkpoint c st sc) sc.value.index =
      Except.ok (some sc) := by
  simp [fetch_checkpoint, write_checkpoint, getObject, insertObject,
    List.find?, fetchCheckpointResult, decodeCheckpoint]

/-- C9: on a store where the latest-index object is absent,
`update_latest_index(0)` performs no write — the state is returned
unchanged and `latest_index` still reads `None`, not `Some(0)`. -/
theorem update_latest_index_zero_no_write (c : GcsStorageClient) :
    update_latest_index c emptyState 0 = Except.ok emptyState ∧
    latest_index c emptyState = Except.ok none ∧
    latest_index c emptyState ≠ Except.ok (some 0) := by
  refine ⟨rfl, rfl, ?_⟩
  intro h
  exact Option.noConfusion (Except.ok.inj h)

/-- C10: a configured folder equal to the empty string — or any string of
only `'/'` characters — is not equivalent to no folder: it produces the
leading-slash key `"/" ++ name`, while with no folder the key is the bare
object name, and the two disagree for every object name. -/
theorem empty_folder_not_bare (b name : String) :
    object_path ⟨b, some ""⟩ name = "/" ++ name ∧
    object_path ⟨b, none⟩ name = name ∧
    (∀ f : String, (∀ ch ∈ f.data, ch = '/') →
      object_path ⟨b, some f⟩ name = "/" ++ name) ∧
    object_path ⟨b, some ""⟩ name ≠ object_path ⟨b, none⟩ name := by
  have hone : ∀ f : String, trimEndMatchesSlash f = "" →
      object_path ⟨b, some f⟩ name = "/" ++ name := by
    intro f hf
    show trimEndMatchesSlash f ++ "/" ++ name = "/" ++ name
    rw [hf]
    rfl
  have hempty : object_path ⟨b, some ""⟩ name = "/" ++ name :=
    hone "" rfl
  refine ⟨hempty, rfl, ?_, ?_⟩
  · intro f hf
    apply hone
    have hall : f.data.reverse.dropWhile (fun c => c = '/') = [] := by
      rw [List.dropWhile_eq_nil_iff]
      intro x hx
      simp [hf x (List.mem_reverse.mp hx)]
    simp [trimEndMatchesSlash, hall]
  · rw [hempty]
    show ¬ "/" ++ name = name
    intro h
    have hlen := congrArg String.length h
    rw [String.length_append] at hlen
    have h1 : ("/" : String).length = 1 := rfl
    rw [h1] at hlen
    omega

/-- C10 witness: the all-slash folder case applied at the concrete folder
`"//"`, bucket `"test-bucket"` and object name `"x.json"`. -/
theorem empty_folder_not_bare_witness :
    object_path ⟨"test-bucket", some "//"⟩ "x.json" = "/x.json" := by
  have h := empty_folder_not_bare "test-bucket" "x.json"
  have h2 := h.2.2.1 "//" (by decide)
  exact h2.trans (by decide)

end GcsStorage
